import Mathlib

/-!
Verification of the credential vault and multi-platform publishing engine of
the yall-cosmic application (src/crypto.rs, src/config.rs, src/social.rs,
src/app.rs), shallowly embedded in Lean.

External libraries are modelled as explicit parameters of the embedded
functions: the AES-256-GCM cipher of the aes_gcm crate and the UTF-8 codec of
the Rust standard library as records of functions together with the
correctness predicates they are documented to satisfy, the operating-system
entropy source as explicit nonce/salt arguments, the HTTP client, the
filesystem and the relay client as per-call response oracles.  Each adapter
additionally returns the ordered list of network calls it issued, so that
statements about "zero network calls" and about the payload that is actually
posted can be made.
-/

deriving instance DecidableEq for Except

namespace YallCosmic

/-- The AEAD cipher interface used by `CryptoManager` (`Aes256Gcm` in
src/crypto.rs): `enc key nonce plaintextBytes` yields the ciphertext
(tag included), `dec key nonce ciphertext` yields the authenticated
plaintext bytes, or `none` when authentication-tag verification fails. -/
structure AeadCipher where
  enc : List Nat → List Nat → List Nat → List Nat
  dec : List Nat → List Nat → List Nat → Option (List Nat)

/-- Functional correctness of an AEAD cipher: decrypting a ciphertext with
the key and nonce it was produced under recovers the plaintext. -/
def AeadCorrect (A : AeadCipher) : Prop :=
  ∀ k n pt, A.dec k n (A.enc k n pt) = some pt

/-- The UTF-8 string codec of the Rust standard library (`str::as_bytes` /
`String::from_utf8`): `enc` encodes a string to bytes, `dec` recovers a
string from bytes, or `none` when the bytes are not valid UTF-8. -/
structure StrCodec where
  enc : String → List Nat
  dec : List Nat → Option String

/-- Functional correctness of the string codec: decoding the encoding of a
string recovers that string. -/
def CodecCorrect (G : StrCodec) : Prop :=
  ∀ s, G.dec (G.enc s) = some s

/-- `CryptoError` from src/crypto.rs. -/
inductive CryptoError where
  | EncryptionFailed
  | DecryptionFailed
  | KeyDerivationFailed
  | InvalidData
deriving DecidableEq, Repr

/-- `EncryptedData` from src/crypto.rs: ciphertext bytes, nonce bytes and an
auxiliary salt string. -/
structure EncryptedData where
  ciphertext : List Nat
  nonce : List Nat
  salt : String
deriving DecidableEq, Repr

/-- `CryptoManager` from src/crypto.rs: an optional 256-bit master key. -/
structure CryptoManager where
  master_key : Option (List Nat)

/-- `CryptoManager::encrypt` from src/crypto.rs.  The fresh random nonce and
salt drawn from `OsRng` are passed as explicit arguments (the generated nonce
of `Aes256Gcm::generate_nonce` is 96 bits, i.e. 12 bytes, long); the AES-GCM
encryption itself is modelled as total, as it is infallible for in-memory
buffers. -/
def CryptoManager.encrypt (A : AeadCipher) (G : StrCodec) (m : CryptoManager)
    (nonce : List Nat) (salt : String) (plaintext : String) :
    Except CryptoError EncryptedData :=
  match m.master_key with
  | none => .error .EncryptionFailed
  | some key =>
      .ok { ciphertext := A.enc key nonce (G.enc plaintext)
            nonce := nonce
            salt := salt }

/-- `CryptoManager::decrypt` from src/crypto.rs: fails with
`DecryptionFailed` when no master key is loaded, then with `InvalidData` when
the nonce length is not 12 bytes, then with `DecryptionFailed` when
authentication-tag verification fails, then with `InvalidData` when the
recovered bytes are not valid UTF-8. -/
def CryptoManager.decrypt (A : AeadCipher) (G : StrCodec) (m : CryptoManager)
    (encrypted : EncryptedData) : Except CryptoError String :=
  match m.master_key with
  | none => .error .DecryptionFailed
  | some key =>
      if encrypted.nonce.length = 12 then
        match A.dec key encrypted.nonce encrypted.ciphertext with
        | none => .error .DecryptionFailed
        | some bytes =>
            match G.dec bytes with
            | none => .error .InvalidData
            | some s => .ok s
      else .error .InvalidData

/-- `BlueskyConfig` from src/config.rs. -/
structure BlueskyConfig where
  enabled : Bool
  handle : String
  password : Option EncryptedData
  decrypted_password : String
deriving DecidableEq, Repr

/-- `MastodonConfig` from src/config.rs. -/
structure MastodonConfig where
  enabled : Bool
  instance_url : String
  access_token : Option EncryptedData
  decrypted_access_token : String
deriving DecidableEq, Repr

/-- `NostrConfig` from src/config.rs. -/
structure NostrConfig where
  enabled : Bool
  private_key : Option EncryptedData
  relays : List String
  decrypted_private_key : String
deriving DecidableEq, Repr

/-- `MicroBlogConfig` from src/config.rs. -/
structure MicroBlogConfig where
  enabled : Bool
  access_token : Option EncryptedData
  decrypted_access_token : String
deriving DecidableEq, Repr

/-- `Config` from src/config.rs. -/
structure Config where
  bluesky : BlueskyConfig
  mastodon : MastodonConfig
  nostr : NostrConfig
  microblog : MicroBlogConfig
deriving DecidableEq, Repr

/-- One `if let Some(encrypted) = ... { ... = crypto.decrypt(encrypted)? }`
step of `Config::decrypt_credentials`: when a secret is persisted it is
decrypted, otherwise the current decrypted value is kept. -/
def decField (A : AeadCipher) (G : StrCodec) (m : CryptoManager)
    (stored : Option EncryptedData) (current : String) :
    Except CryptoError String :=
  match stored with
  | none => .ok current
  | some ed => CryptoManager.decrypt A G m ed

/-- `Config::decrypt_credentials` from src/config.rs.  The Rust function
mutates `self` and returns `Result<(), CryptoError>`; the embedding returns
the final configuration together with the error, if any.  The `?` operator
returns on the first failing platform, leaving the state reached so far. -/
def Config.decrypt_credentials (A : AeadCipher) (G : StrCodec)
    (m : CryptoManager) (cfg : Config) : Config × Option CryptoError :=
  match decField A G m cfg.bluesky.password cfg.bluesky.decrypted_password with
  | .error e => (cfg, some e)
  | .ok sB =>
    let c1 := { cfg with bluesky := { cfg.bluesky with decrypted_password := sB } }
    match decField A G m c1.mastodon.access_token c1.mastodon.decrypted_access_token with
    | .error e => (c1, some e)
    | .ok sM =>
      let c2 := { c1 with mastodon := { c1.mastodon with decrypted_access_token := sM } }
      match decField A G m c2.microblog.access_token c2.microblog.decrypted_access_token with
      | .error e => (c2, some e)
      | .ok sU =>
        let c3 := { c2 with microblog := { c2.microblog with decrypted_access_token := sU } }
        match decField A G m c3.nostr.private_key c3.nostr.decrypted_private_key with
        | .error e => (c3, some e)
        | .ok sN =>
          ({ c3 with nostr := { c3.nostr with decrypted_private_key := sN } }, none)

/-- One `if !....is_empty() { ... = Some(crypto.encrypt(...)?) }` step of
`Config::encrypt_credentials`: the persisted secret is replaced only when the
decrypted field is non-empty. -/
def encField (A : AeadCipher) (G : StrCodec) (m : CryptoManager)
    (nonce : List Nat) (salt : String) (decrypted : String)
    (stored : Option EncryptedData) : Except CryptoError (Option EncryptedData) :=
  if decrypted.isEmpty then .ok stored
  else (CryptoManager.encrypt A G m nonce salt decrypted).map some

/-- `Config::encrypt_credentials` from src/config.rs.  The fresh nonce/salt
pair drawn from `OsRng` for each platform's encryption is passed as an
explicit argument. -/
def Config.encrypt_credentials (A : AeadCipher) (G : StrCodec)
    (m : CryptoManager) (rB rM rU rN : List Nat × String) (cfg : Config) :
    Config × Option CryptoError :=
  match encField A G m rB.1 rB.2 cfg.bluesky.decrypted_password cfg.bluesky.password with
  | .error e => (cfg, some e)
  | .ok pB =>
    let c1 := { cfg with bluesky := { cfg.bluesky with password := pB } }
    match encField A G m rM.1 rM.2 c1.mastodon.decrypted_access_token c1.mastodon.access_token with
    | .error e => (c1, some e)
    | .ok pM =>
      let c2 := { c1 with mastodon := { c1.mastodon with access_token := pM } }
      match encField A G m rU.1 rU.2 c2.microblog.decrypted_access_token c2.microblog.access_token with
      | .error e => (c2, some e)
      | .ok pU =>
        let c3 := { c2 with microblog := { c2.microblog with access_token := pU } }
        match encField A G m rN.1 rN.2 c3.nostr.decrypted_private_key c3.nostr.private_key with
        | .error e => (c3, some e)
        | .ok pN =>
          ({ c3 with nostr := { c3.nostr with private_key := pN } }, none)

/-- A concrete AEAD cipher used to instantiate witnesses: it marks the
plaintext with a leading byte that decryption checks and strips. -/
def tagCipher : AeadCipher where
  enc := fun _ _ pt => 1 :: pt
  dec := fun _ _ ct =>
    match ct with
    | 1 :: rest => some rest
    | _ => none

/-- A concrete string codec used to instantiate witnesses: code points in,
code points out. -/
def charCodec : StrCodec where
  enc := fun s => s.toList.map Char.toNat
  dec := fun l => some (String.mk (l.map Char.ofNat))

theorem tagCipher_correct : AeadCorrect tagCipher := by
  intro k n pt
  rfl

theorem charCodec_correct : CodecCorrect charCodec := by
  intro s
  show some (String.mk ((s.toList.map Char.toNat).map Char.ofNat)) = some s
  rw [List.map_map]
  have h : (Char.ofNat ∘ Char.toNat) = id := by
    funext c
    exact Char.ofNat_toNat c
  rw [h, List.map_id]
  rfl

/-- `PostError` from src/social.rs. -/
inductive PostError where
  | Network (msg : String)
  | Auth (msg : String)
  | Api (msg : String)
  | Crypto (msg : String)
deriving DecidableEq, Repr

/-- The `Display` implementation of `PostError` from src/social.rs. -/
def PostError.display : PostError → String
  | .Network e => "Network error: " ++ e
  | .Auth e => "Authentication error: " ++ e
  | .Api e => "API error: " ++ e
  | .Crypto e => "Cryptography error: " ++ e

/-- Outcome of one outbound HTTP call: a transport failure (a `reqwest`
error, propagated by `?` as `PostError::Network`), or a response with a
success status flag and a parsed body. -/
inductive NetResult (α : Type) where
  | transportErr (msg : String)
  | resp (success : Bool) (body : α)
deriving DecidableEq, Repr

/-- `BLUESKY_CHARACTER_LIMIT` from src/social.rs. -/
def BLUESKY_CHARACTER_LIMIT : Nat := 300

/-- Rust's `char::is_whitespace` (the Unicode White_Space property), used by
`str::trim` in `post_to_bluesky`. -/
def rustIsWhitespace (c : Char) : Bool :=
  let n := c.toNat
  (decide (9 ≤ n) && decide (n ≤ 13)) || decide (n = 32) || decide (n = 133) ||
    decide (n = 160) || decide (n = 5760) ||
    (decide (8192 ≤ n) && decide (n ≤ 8202)) || decide (n = 8232) ||
    decide (n = 8233) || decide (n = 8239) || decide (n = 8287) ||
    decide (n = 12288)

/-- Rust's `text.trim().is_empty()`: true exactly when every character of the
text is whitespace. -/
def rustTrimEmpty (s : String) : Bool := s.toList.all rustIsWhitespace

/-- The empty-text fallback of `post_to_bluesky` (src/social.rs lines 46-51):
if the text trims to empty and an image is attached, a single space is posted
instead. -/
def bskySubstituted (text : String) (image_path : Option String) : String :=
  if rustTrimEmpty text && image_path.isSome then " " else text

/-- The character-limit truncation of `post_to_bluesky` (src/social.rs lines
52-57): `text.chars().take(300).collect()` when the scalar-value count
exceeds the limit, the text unchanged otherwise. -/
def bskyTruncate (text : String) : String :=
  if text.toList.length > BLUESKY_CHARACTER_LIMIT then
    String.mk (text.toList.take BLUESKY_CHARACTER_LIMIT)
  else text

/-- The outbound network calls `post_to_bluesky` can issue.  The
`createRecord` call carries the text of the posted record and whether an
image embed is included. -/
inductive BskyCall where
  | createSession
  | uploadBlob
  | createRecord (text : String) (hasEmbed : Bool)
deriving DecidableEq, Repr

/-- Response oracle for `post_to_bluesky`: the session response carries the
`accessJwt` field when present, the upload response carries whether a `blob`
object is present in the body, the create-record response carries the
response text used in error messages. -/
structure BskyNet where
  session : NetResult (Option String)
  upload : NetResult Bool
  create : NetResult String

/-- The image-upload section of `post_to_bluesky` (src/social.rs lines
79-108): read the file, enforce the 1,000,000-byte cap, issue the upload
call; a non-success upload status is logged and the post proceeds without an
embed. -/
def bskyUploadPhase (fs : String → Except String Nat) (up : NetResult Bool)
    (path : String) : Except (PostError × List BskyCall) (Bool × List BskyCall) :=
  match fs path with
  | .error e => .error (.Api ("Failed to read image: " ++ e), [])
  | .ok size =>
    if size > 1000000 then
      .error (.Api ("Image file size too large. 1000000 bytes maximum, got: " ++ toString size), [])
    else
      match up with
      | .transportErr m => .error (.Network m, [.uploadBlob])
      | .resp true hasBlob => .ok (hasBlob, [.uploadBlob])
      | .resp false _ => .ok (false, [.uploadBlob])

/-- The create-record section of `post_to_bluesky` (src/social.rs lines
110-144). -/
def bskyCreatePhase (create : NetResult String) (truncated_text : String)
    (hasBlob : Bool) : Except PostError Unit × List BskyCall :=
  match create with
  | .transportErr m => (.error (.Network m), [.createRecord truncated_text hasBlob])
  | .resp true _ => (.ok (), [.createRecord truncated_text hasBlob])
  | .resp false body =>
      (.error (.Api ("Bluesky API error: " ++ body)), [.createRecord truncated_text hasBlob])

/-- `post_to_bluesky` from src/social.rs, returning the result together with
the ordered list of network calls issued.  The filesystem is the oracle `fs`
(byte count of a readable file, or the read-error text). -/
def post_to_bluesky (config : BlueskyConfig) (text : String)
    (image_path : Option String) (fs : String → Except String Nat)
    (net : BskyNet) : Except PostError Unit × List BskyCall :=
  if !config.enabled || config.handle.isEmpty || config.decrypted_password.isEmpty then
    (.error (.Auth "Bluesky not configured"), [])
  else
    let truncated_text := bskyTruncate (bskySubstituted text image_path)
    match net.session with
    | .transportErr m => (.error (.Network m), [.createSession])
    | .resp false _ => (.error (.Auth "Failed to authenticate with Bluesky"), [.createSession])
    | .resp true none => (.error (.Auth "No access token received"), [.createSession])
    | .resp true (some _jwt) =>
      match image_path with
      | none =>
        let r := bskyCreatePhase net.create truncated_text false
        (r.1, .createSession :: r.2)
      | some path =>
        match bskyUploadPhase fs net.upload path with
        | .error (e, cs) => (.error e, .createSession :: cs)
        | .ok (hasBlob, cs) =>
          let r := bskyCreatePhase net.create truncated_text hasBlob
          (r.1, .createSession :: (cs ++ r.2))

/-- The outbound network calls `post_to_mastodon` can issue. -/
inductive MastoCall where
  | mediaUpload
  | postStatus (status : String) (media_ids : List String)
deriving DecidableEq, Repr

/-- Response oracle for `post_to_mastodon`: the media response carries the
parsed `id` field when present, the status response carries the response
text used in error messages. -/
structure MastoNet where
  media : NetResult (Option String)
  status : NetResult String

/-- The status-posting section of `post_to_mastodon` (src/social.rs lines
175-189). -/
def mastoStatusPhase (st : NetResult String) (text : String)
    (media_id : Option String) (cs : List MastoCall) :
    Except PostError Unit × List MastoCall :=
  let ids := match media_id with
    | some i => [i]
    | none => []
  match st with
  | .transportErr m => (.error (.Network m), cs ++ [.postStatus text ids])
  | .resp true _ => (.ok (), cs ++ [.postStatus text ids])
  | .resp false body =>
      (.error (.Api ("Mastodon API error: " ++ body)), cs ++ [.postStatus text ids])

/-- `post_to_mastodon` from src/social.rs, returning the result together with
the ordered list of network calls issued.  A failed media upload (non-success
status) is ignored and the status is posted without a media id. -/
def post_to_mastodon (config : MastodonConfig) (text : String)
    (image_path : Option String) (fs : String → Except String Nat)
    (net : MastoNet) : Except PostError Unit × List MastoCall :=
  if !config.enabled || config.instance_url.isEmpty || config.decrypted_access_token.isEmpty then
    (.error (.Auth "Mastodon not configured"), [])
  else
    match image_path with
    | none => mastoStatusPhase net.status text none []
    | some path =>
      match fs path with
      | .error e => (.error (.Api ("Failed to read image: " ++ e)), [])
      | .ok _size =>
        match net.media with
        | .transportErr m => (.error (.Network m), [.mediaUpload])
        | .resp true mid => mastoStatusPhase net.status text mid [.mediaUpload]
        | .resp false _ => mastoStatusPhase net.status text none [.mediaUpload]

/-- The outbound relay operations `post_to_nostr` can issue. -/
inductive NostrCall where
  | addRelay (url : String)
  | connect
  | sendEvent (content : String)
deriving DecidableEq, Repr

/-- `post_to_nostr` from src/social.rs, returning the result together with
the ordered list of relay operations issued.  Key parsing
(`SecretKey::from_hex`), event signing and the relay send are modelled as
oracles; the image path is ignored, as in the source. -/
def post_to_nostr (config : NostrConfig) (text : String)
    (_image_path : Option String) (parseKey : String → Except String Unit)
    (signEvent : Except String Unit) (sendRes : Except String Unit) :
    Except PostError Unit × List NostrCall :=
  if !config.enabled || config.decrypted_private_key.isEmpty || config.relays.isEmpty then
    (.error (.Auth "Nostr not configured"), [])
  else
    match parseKey config.decrypted_private_key with
    | .error e => (.error (.Crypto ("Invalid private key: " ++ e)), [])
    | .ok _ =>
      let cs := config.relays.map NostrCall.addRelay ++ [NostrCall.connect]
      match signEvent with
      | .error e => (.error (.Crypto ("Failed to sign event: " ++ e)), cs)
      | .ok _ =>
        match sendRes with
        | .error e =>
            (.error (.Api ("Failed to post to any Nostr relays: " ++ e)), cs ++ [.sendEvent text])
        | .ok _ => (.ok (), cs ++ [.sendEvent text])

/-- The outbound network calls `post_to_microblog` can issue. -/
inductive MbCall where
  | micropubMultipart (content : String)
  | micropubForm (content : String)
deriving DecidableEq, Repr

/-- `post_to_microblog` from src/social.rs, returning the result together
with the ordered list of network calls issued. -/
def post_to_microblog (config : MicroBlogConfig) (text : String)
    (image_path : Option String) (fs : String → Except String Nat)
    (multiResp formResp : NetResult String) :
    Except PostError Unit × List MbCall :=
  if !config.enabled || config.decrypted_access_token.isEmpty then
    (.error (.Auth "Micro.Blog not configured"), [])
  else
    match image_path with
    | some path =>
      match fs path with
      | .error e => (.error (.Api ("Failed to read image: " ++ e)), [])
      | .ok _size =>
        match multiResp with
        | .transportErr m => (.error (.Network m), [.micropubMultipart text])
        | .resp true _ => (.ok (), [.micropubMultipart text])
        | .resp false body =>
            (.error (.Api ("Micro.Blog API error: " ++ body)), [.micropubMultipart text])
    | none =>
      match formResp with
      | .transportErr m => (.error (.Network m), [.micropubForm text])
      | .resp true _ => (.ok (), [.micropubForm text])
      | .resp false body =>
          (.error (.Api ("Micro.Blog API error: " ++ body)), [.micropubForm text])

/-- The four platforms of the publishing engine. -/
inductive Platform where
  | bluesky
  | mastodon
  | microblog
  | nostr
deriving DecidableEq, Repr

/-- The label used when an adapter's failure is pushed onto the error list in
the PostSubmit task of src/app.rs. -/
def platformLabel : Platform → String
  | .bluesky => "Bluesky"
  | .mastodon => "Mastodon"
  | .microblog => "Micro.Blog"
  | .nostr => "Nostr"

/-- `format!("Bluesky: {}", e)` etc. in the PostSubmit task of src/app.rs. -/
def tagError (p : Platform) (e : PostError) : String :=
  platformLabel p ++ ": " ++ e.display

/-- The selection function packaging the four `post_to_*` booleans of the
PostSubmit task. -/
def selOf (sb sm su sn : Bool) : Platform → Bool
  | .bluesky => sb
  | .mastodon => sm
  | .microblog => su
  | .nostr => sn

/-- One `if post_to_x { if let Err(e) = post_to_x(..).await { errors.push(..) } }`
block of the PostSubmit task of src/app.rs: the platforms invoked and the
error entries pushed. -/
def runAdapter (sel : Bool) (p : Platform) (r : Option PostError) :
    List Platform × List String :=
  if sel then
    ([p], match r with
          | some e => [tagError p e]
          | none => [])
  else ([], [])

/-- The PostSubmit async task of src/app.rs (lines 282-321): runs the four
adapter blocks in order, collects the tagged error strings, and returns
`Ok(())` when no error was collected, otherwise `Err(PostError::Api)` of the
`"; "`-joined error list.  The per-adapter outcome (the network world) is the
oracle `adapter`. -/
def postSubmit (sb sm su sn : Bool) (adapter : Platform → Option PostError) :
    List Platform × List String × Except PostError Unit :=
  let aB := runAdapter sb .bluesky (adapter .bluesky)
  let aM := runAdapter sm .mastodon (adapter .mastodon)
  let aU := runAdapter su .microblog (adapter .microblog)
  let aN := runAdapter sn .nostr (adapter .nostr)
  let calls := aB.1 ++ aM.1 ++ aU.1 ++ aN.1
  let errors := aB.2 ++ aM.2 ++ aU.2 ++ aN.2
  (calls, errors,
   if errors.isEmpty then .ok ()
   else .error (.Api (String.intercalate "; " errors)))

/-- Scheduling events of the PostSubmit task: the moment an adapter's request
is issued and the moment its completion is observed. -/
inductive OrchEvent where
  | start (p : Platform)
  | finish (p : Platform)
deriving DecidableEq, Repr

/-- One `post_to_x(..).await` of the PostSubmit task as an event block: the
future is constructed (request issued) and then awaited to completion before
the task continues. -/
def awaitBlock (sel : Bool) (p : Platform) : List OrchEvent :=
  if sel then [.start p, .finish p] else []

/-- The scheduling trace of the PostSubmit async task of src/app.rs: the four
adapter calls are awaited one after another in the source order, so each
selected adapter's request is issued only after the previous selected
adapter's call has completed. -/
def postSubmitAwaitTrace (sb sm su sn : Bool) : List OrchEvent :=
  awaitBlock sb .bluesky ++ awaitBlock sm .mastodon ++
    awaitBlock su .microblog ++ awaitBlock sn .nostr

/-- Position of a platform in the fixed await order of the PostSubmit task. -/
def platformIdx : Platform → Nat
  | .bluesky => 0
  | .mastodon => 1
  | .microblog => 2
  | .nostr => 3

/-- A 12-byte nonce used in concrete instances. -/
def n12 : List Nat := List.replicate 12 0

/-- A `CryptoManager` with a loaded master key, for concrete instances. -/
def mKey : CryptoManager := ⟨some []⟩

/-- A `CryptoManager` with no master key, for concrete instances. -/
def mNone : CryptoManager := ⟨none⟩

/-- A codec whose decode side can fail, used to exercise the invalid-UTF-8
branch in concrete instances. -/
def pickyCodec : StrCodec where
  enc := fun s => s.toList.map Char.toNat
  dec := fun l => if l.isEmpty then none else some (String.mk (l.map Char.ofNat))

/-- Claim C3: for every non-empty plaintext string `s` and every
`CryptoManager` whose master key is loaded, `decrypt` applied to the result
of `encrypt s` under the same key succeeds and returns exactly `s`
(stated for every AEAD cipher and string codec satisfying their documented
correctness, and for the 12-byte nonce that `generate_nonce` supplies). -/
theorem c3_encrypt_decrypt_roundtrip (A : AeadCipher) (G : StrCodec)
    (m : CryptoManager) (key nonce : List Nat) (salt s : String)
    (ed : EncryptedData) (hA : AeadCorrect A) (hG : CodecCorrect G)
    (hk : m.master_key = some key) (hn : nonce.length = 12) (_hs : s ≠ "")
    (he : CryptoManager.encrypt A G m nonce salt s = .ok ed) :
    CryptoManager.decrypt A G m ed = .ok s := by
  simp only [CryptoManager.encrypt, hk] at he
  rw [Except.ok.injEq] at he
  subst he
  simp [CryptoManager.decrypt, hk, hn, hA key nonce (G.enc s), hG s]

/-- Witness for C3 at a concrete key, nonce and plaintext. -/
theorem c3_witness :
    CryptoManager.encrypt tagCipher charCodec mKey n12 "" "a"
        = .ok ⟨[1, 97], n12, ""⟩ ∧
      CryptoManager.decrypt tagCipher charCodec mKey ⟨[1, 97], n12, ""⟩ = .ok "a" := by
  refine ⟨rfl, ?_⟩
  exact c3_encrypt_decrypt_roundtrip tagCipher charCodec mKey [] n12 "" "a"
    ⟨[1, 97], n12, ""⟩ tagCipher_correct charCodec_correct rfl (by decide)
    (by decide) rfl

/-- Claim C5 counterexample: the claim requires `InvalidData` whenever the
nonce length is not exactly 12 bytes, but with no master key loaded and a
zero-length nonce `decrypt` returns `DecryptionFailed` (the key check comes
first in the source). -/
theorem c5_counterexample :
    CryptoManager.decrypt tagCipher charCodec mNone ⟨[], [], ""⟩
        = .error .DecryptionFailed ∧
      (([], [], "") : List Nat × List Nat × String).2.1.length ≠ 12 ∧
      CryptoError.DecryptionFailed ≠ CryptoError.InvalidData := by
  refine ⟨rfl, by decide, by decide⟩

/-- Claim C5 (amended): `decrypt` returns `DecryptionFailed` when no master
key is loaded (regardless of the nonce); when a key is loaded it returns
`InvalidData` when the nonce length is not exactly 12 bytes,
`DecryptionFailed` when authentication-tag verification fails, and
`InvalidData` when the recovered bytes are not valid UTF-8; and it returns a
plaintext only when that plaintext is exactly the authenticated decryption of
the ciphertext — never a wrong plaintext silently. -/
theorem c5_decrypt_error_cases (A : AeadCipher) (G : StrCodec)
    (m : CryptoManager) (d : EncryptedData) :
    (m.master_key = none →
      CryptoManager.decrypt A G m d = .error .DecryptionFailed) ∧
    (∀ k, m.master_key = some k → d.nonce.length ≠ 12 →
      CryptoManager.decrypt A G m d = .error .InvalidData) ∧
    (∀ k, m.master_key = some k → d.nonce.length = 12 →
      A.dec k d.nonce d.ciphertext = none →
      CryptoManager.decrypt A G m d = .error .DecryptionFailed) ∧
    (∀ k bs, m.master_key = some k → d.nonce.length = 12 →
      A.dec k d.nonce d.ciphertext = some bs → G.dec bs = none →
      CryptoManager.decrypt A G m d = .error .InvalidData) ∧
    (∀ s, CryptoManager.decrypt A G m d = .ok s →
      ∃ k bs, m.master_key = some k ∧ d.nonce.length = 12 ∧
        A.dec k d.nonce d.ciphertext = some bs ∧ G.dec bs = some s) := by
  refine ⟨?_, ?_, ?_, ?_, ?_⟩
  · intro h
    simp [CryptoManager.decrypt, h]
  · intro k hk hn
    simp [CryptoManager.decrypt, hk, hn]
  · intro k hk hn hd
    simp [CryptoManager.decrypt, hk, hn, hd]
  · intro k bs hk hn hd hg
    simp [CryptoManager.decrypt, hk, hn, hd, hg]
  · intro s h
    cases hk : m.master_key with
    | none => simp [CryptoManager.decrypt, hk] at h
    | some k =>
      by_cases hn : d.nonce.length = 12
      · cases hd : A.dec k d.nonce d.ciphertext with
        | none => simp [CryptoManager.decrypt, hk, hn, hd] at h
        | some bs =>
          cases hg : G.dec bs with
          | none => simp [CryptoManager.decrypt, hk, hn, hd, hg] at h
          | some s1 =>
            have hss : s1 = s := by
              simpa [CryptoManager.decrypt, hk, hn, hd, hg] using h
            exact ⟨k, bs, rfl, hn, hd, hss ▸ hg⟩
      · simp [CryptoManager.decrypt, hk, hn] at h

/-- Witness for C5 exercising each error branch at concrete inputs. -/
theorem c5_witness :
    CryptoManager.decrypt tagCipher charCodec mNone ⟨[1, 97], n12, ""⟩
        = .error .DecryptionFailed ∧
      CryptoManager.decrypt tagCipher charCodec mKey ⟨[1, 97], [], ""⟩
        = .error .InvalidData ∧
      CryptoManager.decrypt tagCipher charCodec mKey ⟨[0], n12, ""⟩
        = .error .DecryptionFailed ∧
      CryptoManager.decrypt tagCipher pickyCodec mKey ⟨[1], n12, ""⟩
        = .error .InvalidData ∧
      (∃ k bs, mKey.master_key = some k ∧
        (⟨[1, 97], n12, ""⟩ : EncryptedData).nonce.length = 12 ∧
        tagCipher.dec k n12 [1, 97] = some bs ∧ charCodec.dec bs = some "a") := by
  refine ⟨?_, ?_, ?_, ?_, ?_⟩
  · exact (c5_decrypt_error_cases tagCipher charCodec mNone ⟨[1, 97], n12, ""⟩).1 rfl
  · exact (c5_decrypt_error_cases tagCipher charCodec mKey ⟨[1, 97], [], ""⟩).2.1
      [] rfl (by decide)
  · exact (c5_decrypt_error_cases tagCipher charCodec mKey ⟨[0], n12, ""⟩).2.2.1
      [] rfl (by decide) (by decide)
  · exact (c5_decrypt_error_cases tagCipher pickyCodec mKey ⟨[1], n12, ""⟩).2.2.2.1
      [] [] rfl (by decide) (by decide) (by decide)
  · exact (c5_decrypt_error_cases tagCipher charCodec mKey ⟨[1, 97], n12, ""⟩).2.2.2.2
      "a" rfl

/-- An `EncryptedData` that `tagCipher`/`charCodec` decrypt to `"tok"`. -/
def cexEncOk : EncryptedData := ⟨1 :: charCodec.enc "tok", n12, ""⟩

/-- An `EncryptedData` on which `tagCipher` tag verification fails. -/
def cexEncBad : EncryptedData := ⟨[], n12, ""⟩

/-- A configuration whose Bluesky secret fails to decrypt while its Mastodon
secret decrypts fine, for the C1 counterexample. -/
def c1cfg : Config where
  bluesky := { enabled := true, handle := "h", password := some cexEncBad,
               decrypted_password := "" }
  mastodon := { enabled := true, instance_url := "u", access_token := some cexEncOk,
                decrypted_access_token := "" }
  nostr := { enabled := false, private_key := none, relays := [],
             decrypted_private_key := "" }
  microblog := { enabled := false, access_token := none,
                 decrypted_access_token := "" }

/-- Claim C1 counterexample: two platforms hold persisted encrypted secrets,
Bluesky's fails to decrypt, Mastodon's decrypts to `"tok"` on its own — yet
`decrypt_credentials` aborts with the error and leaves Mastodon's
decrypted field empty instead of `"tok"`. -/
theorem c1_counterexample :
    CryptoManager.decrypt tagCipher charCodec mKey cexEncOk = .ok "tok" ∧
      CryptoManager.decrypt tagCipher charCodec mKey cexEncBad
        = .error .DecryptionFailed ∧
      (Config.decrypt_credentials tagCipher charCodec mKey c1cfg).2
        = some .DecryptionFailed ∧
      (Config.decrypt_credentials tagCipher charCodec mKey c1cfg).1.mastodon.decrypted_access_token
        = "" := by
  refine ⟨by decide, by decide, by decide, by decide⟩

/-- Claim C1 (amended): on the first decryption failure (in the order
Bluesky, Mastodon, Micro.blog, Nostr) `decrypt_credentials` aborts with that
error: platforms before the failing one have been decrypted, and the failing
platform's and every later platform's decrypted field is left unchanged. -/
theorem c1_decrypt_credentials_aborts (A : AeadCipher) (G : StrCodec)
    (m : CryptoManager) (cfg : Config) (e : CryptoError) :
    (Config.decrypt_credentials A G m cfg).2 = some e →
    (decField A G m cfg.bluesky.password cfg.bluesky.decrypted_password = .error e ∧
        (Config.decrypt_credentials A G m cfg).1 = cfg) ∨
    (∃ sB, decField A G m cfg.bluesky.password cfg.bluesky.decrypted_password = .ok sB ∧
        decField A G m cfg.mastodon.access_token cfg.mastodon.decrypted_access_token = .error e ∧
        (Config.decrypt_credentials A G m cfg).1 =
          { cfg with bluesky := { cfg.bluesky with decrypted_password := sB } }) ∨
    (∃ sB sM, decField A G m cfg.bluesky.password cfg.bluesky.decrypted_password = .ok sB ∧
        decField A G m cfg.mastodon.access_token cfg.mastodon.decrypted_access_token = .ok sM ∧
        decField A G m cfg.microblog.access_token cfg.microblog.decrypted_access_token = .error e ∧
        (Config.decrypt_credentials A G m cfg).1 =
          { cfg with bluesky := { cfg.bluesky with decrypted_password := sB },
                     mastodon := { cfg.mastodon with decrypted_access_token := sM } }) ∨
    (∃ sB sM sU, decField A G m cfg.bluesky.password cfg.bluesky.decrypted_password = .ok sB ∧
        decField A G m cfg.mastodon.access_token cfg.mastodon.decrypted_access_token = .ok sM ∧
        decField A G m cfg.microblog.access_token cfg.microblog.decrypted_access_token = .ok sU ∧
        decField A G m cfg.nostr.private_key cfg.nostr.decrypted_private_key = .error e ∧
        (Config.decrypt_credentials A G m cfg).1 =
          { cfg with bluesky := { cfg.bluesky with decrypted_password := sB },
                     mastodon := { cfg.mastodon with decrypted_access_token := sM },
                     microblog := { cfg.microblog with decrypted_access_token := sU } }) := by
  intro h
  cases h1 : decField A G m cfg.bluesky.password cfg.bluesky.decrypted_password with
  | error e1 =>
    simp only [Config.decrypt_credentials, h1, Option.some.injEq] at h
    subst h
    exact Or.inl ⟨rfl, by simp [Config.decrypt_credentials, h1]⟩
  | ok sB =>
    cases h2 : decField A G m cfg.mastodon.access_token cfg.mastodon.decrypted_access_token with
    | error e2 =>
      simp only [Config.decrypt_credentials, h1, h2, Option.some.injEq] at h
      subst h
      exact Or.inr (Or.inl ⟨sB, rfl, rfl, by simp [Config.decrypt_credentials, h1, h2]⟩)
    | ok sM =>
      cases h3 : decField A G m cfg.microblog.access_token cfg.microblog.decrypted_access_token with
      | error e3 =>
        simp only [Config.decrypt_credentials, h1, h2, h3, Option.some.injEq] at h
        subst h
        exact Or.inr (Or.inr (Or.inl ⟨sB, sM, rfl, rfl, rfl,
          by simp [Config.decrypt_credentials, h1, h2, h3]⟩))
      | ok sU =>
        cases h4 : decField A G m cfg.nostr.private_key cfg.nostr.decrypted_private_key with
        | error e4 =>
          simp only [Config.decrypt_credentials, h1, h2, h3, h4, Option.some.injEq] at h
          subst h
          exact Or.inr (Or.inr (Or.inr ⟨sB, sM, sU, rfl, rfl, rfl, rfl,
            by simp [Config.decrypt_credentials, h1, h2, h3, h4]⟩))
        | ok sN =>
          simp [Config.decrypt_credentials, h1, h2, h3, h4] at h

/-- Witness for C1 (amended) at the counterexample configuration: the run
aborts in the Bluesky step and the final configuration is untouched. -/
theorem c1_witness :
    decField tagCipher charCodec mKey c1cfg.bluesky.password c1cfg.bluesky.decrypted_password
        = .error .DecryptionFailed ∧
      (Config.decrypt_credentials tagCipher charCodec mKey c1cfg).1 = c1cfg := by
  have hdec : decField tagCipher charCodec mKey c1cfg.bluesky.password
      c1cfg.bluesky.decrypted_password = .error .DecryptionFailed := by decide
  have h := c1_decrypt_credentials_aborts tagCipher charCodec mKey c1cfg
    .DecryptionFailed (by decide)
  rcases h with ⟨hB, hres⟩ | ⟨sB, hB, _, _⟩ | ⟨sB, sM, hB, _, _, _⟩ |
    ⟨sB, sM, sU, hB, _, _, _, _⟩
  · exact ⟨hB, hres⟩
  · rw [hdec] at hB
    exact Except.noConfusion hB
  · rw [hdec] at hB
    exact Except.noConfusion hB
  · rw [hdec] at hB
    exact Except.noConfusion hB

/-- If the decrypted field is empty, the `encField` step keeps the persisted
secret. -/
theorem encField_empty_ok {A : AeadCipher} {G : StrCodec} {m : CryptoManager}
    {n : List Nat} {s decrypted : String} {stored p : Option EncryptedData}
    (h : decrypted = "") (hok : encField A G m n s decrypted stored = .ok p) :
    p = stored := by
  subst h
  have hcond : ("" : String).isEmpty = true := rfl
  simp [encField, hcond] at hok
  exact hok.symm

/-- Claim C7: `encrypt_credentials` replaces a platform's persisted encrypted
secret only when that platform's in-memory decrypted field is non-empty; an
empty decrypted field keeps the previously persisted secret (including
`None`) exactly as it was; and no other field of the configuration is
modified. -/
theorem c7_encrypt_credentials_frame (A : AeadCipher) (G : StrCodec)
    (m : CryptoManager) (rB rM rU rN : List Nat × String) (cfg : Config) :
    ∀ r, r = Config.encrypt_credentials A G m rB rM rU rN cfg →
    (cfg.bluesky.decrypted_password = "" →
      r.1.bluesky.password = cfg.bluesky.password) ∧
    (cfg.mastodon.decrypted_access_token = "" →
      r.1.mastodon.access_token = cfg.mastodon.access_token) ∧
    (cfg.microblog.decrypted_access_token = "" →
      r.1.microblog.access_token = cfg.microblog.access_token) ∧
    (cfg.nostr.decrypted_private_key = "" →
      r.1.nostr.private_key = cfg.nostr.private_key) ∧
    (r.1.bluesky.password ≠ cfg.bluesky.password →
      cfg.bluesky.decrypted_password ≠ "") ∧
    (r.1.mastodon.access_token ≠ cfg.mastodon.access_token →
      cfg.mastodon.decrypted_access_token ≠ "") ∧
    (r.1.microblog.access_token ≠ cfg.microblog.access_token →
      cfg.microblog.decrypted_access_token ≠ "") ∧
    (r.1.nostr.private_key ≠ cfg.nostr.private_key →
      cfg.nostr.decrypted_private_key ≠ "") ∧
    r.1.bluesky.enabled = cfg.bluesky.enabled ∧
    r.1.bluesky.handle = cfg.bluesky.handle ∧
    r.1.bluesky.decrypted_password = cfg.bluesky.decrypted_password ∧
    r.1.mastodon.enabled = cfg.mastodon.enabled ∧
    r.1.mastodon.instance_url = cfg.mastodon.instance_url ∧
    r.1.mastodon.decrypted_access_token = cfg.mastodon.decrypted_access_token ∧
    r.1.microblog.enabled = cfg.microblog.enabled ∧
    r.1.microblog.decrypted_access_token = cfg.microblog.decrypted_access_token ∧
    r.1.nostr.enabled = cfg.nostr.enabled ∧
    r.1.nostr.relays = cfg.nostr.relays ∧
    r.1.nostr.decrypted_private_key = cfg.nostr.decrypted_private_key := by
  intro r hr
  subst hr
  cases h1 : encField A G m rB.1 rB.2 cfg.bluesky.decrypted_password cfg.bluesky.password with
  | error e1 =>
    have hres : Config.encrypt_credentials A G m rB rM rU rN cfg = (cfg, some e1) := by
      simp [Config.encrypt_credentials, h1]
    rw [hres]
    exact ⟨fun _ => rfl, fun _ => rfl, fun _ => rfl, fun _ => rfl,
      fun hne => absurd rfl hne, fun hne => absurd rfl hne,
      fun hne => absurd rfl hne, fun hne => absurd rfl hne,
      rfl, rfl, rfl, rfl, rfl, rfl, rfl, rfl, rfl, rfl, rfl⟩
  | ok pB =>
    cases h2 : encField A G m rM.1 rM.2 cfg.mastodon.decrypted_access_token cfg.mastodon.access_token with
    | error e2 =>
      have hres : Config.encrypt_credentials A G m rB rM rU rN cfg =
          ({ cfg with bluesky := { cfg.bluesky with password := pB } }, some e2) := by
        simp [Config.encrypt_credentials, h1, h2]
      rw [hres]
      exact ⟨fun h => encField_empty_ok h h1, fun _ => rfl, fun _ => rfl, fun _ => rfl,
        fun hne h => hne (encField_empty_ok h h1), fun hne => absurd rfl hne,
        fun hne => absurd rfl hne, fun hne => absurd rfl hne,
        rfl, rfl, rfl, rfl, rfl, rfl, rfl, rfl, rfl, rfl, rfl⟩
    | ok pM =>
      cases h3 : encField A G m rU.1 rU.2 cfg.microblog.decrypted_access_token cfg.microblog.access_token with
      | error e3 =>
        have hres : Config.encrypt_credentials A G m rB rM rU rN cfg =
            ({ cfg with bluesky := { cfg.bluesky with password := pB },
                        mastodon := { cfg.mastodon with access_token := pM } }, some e3) := by
          simp [Config.encrypt_credentials, h1, h2, h3]
        rw [hres]
        exact ⟨fun h => encField_empty_ok h h1, fun h => encField_empty_ok h h2,
          fun _ => rfl, fun _ => rfl,
          fun hne h => hne (encField_empty_ok h h1),
          fun hne h => hne (encField_empty_ok h h2),
          fun hne => absurd rfl hne, fun hne => absurd rfl hne,
          rfl, rfl, rfl, rfl, rfl, rfl, rfl, rfl, rfl, rfl, rfl⟩
      | ok pU =>
        cases h4 : encField A G m rN.1 rN.2 cfg.nostr.decrypted_private_key cfg.nostr.private_key with
        | error e4 =>
          have hres : Config.encrypt_credentials A G m rB rM rU rN cfg =
              ({ cfg with bluesky := { cfg.bluesky with password := pB },
                          mastodon := { cfg.mastodon with access_token := pM },
                          microblog := { cfg.microblog with access_token := pU } }, some e4) := by
            simp [Config.encrypt_credentials, h1, h2, h3, h4]
          rw [hres]
          exact ⟨fun h => encField_empty_ok h h1, fun h => encField_empty_ok h h2,
            fun h => encField_empty_ok h h3, fun _ => rfl,
            fun hne h => hne (encField_empty_ok h h1),
            fun hne h => hne (encField_empty_ok h h2),
            fun hne h => hne (encField_empty_ok h h3),
            fun hne => absurd rfl hne,
            rfl, rfl, rfl, rfl, rfl, rfl, rfl, rfl, rfl, rfl, rfl⟩
        | ok pN =>
          have hres : Config.encrypt_credentials A G m rB rM rU rN cfg =
              ({ cfg with bluesky := { cfg.bluesky with password := pB },
                          mastodon := { cfg.mastodon with access_token := pM },
                          microblog := { cfg.microblog with access_token := pU },
                          nostr := { cfg.nostr with private_key := pN } }, none) := by
            simp [Config.encrypt_credentials, h1, h2, h3, h4]
          rw [hres]
          exact ⟨fun h => encField_empty_ok h h1, fun h => encField_empty_ok h h2,
            fun h => encField_empty_ok h h3, fun h => encField_empty_ok h h4,
            fun hne h => hne (encField_empty_ok h h1),
            fun hne h => hne (encField_empty_ok h h2),
            fun hne h => hne (encField_empty_ok h h3),
            fun hne h => hne (encField_empty_ok h h4),
            rfl, rfl, rfl, rfl, rfl, rfl, rfl, rfl, rfl, rfl, rfl⟩

/-- A configuration for the C7 witness: Bluesky's decrypted field is empty
(persisted secret must be kept), Mastodon's is non-empty. -/
def c7cfg : Config where
  bluesky := { enabled := true, handle := "h", password := some cexEncOk,
               decrypted_password := "" }
  mastodon := { enabled := true, instance_url := "u", access_token := none,
                decrypted_access_token := "t" }
  nostr := { enabled := false, private_key := none, relays := ["r"],
             decrypted_private_key := "" }
  microblog := { enabled := false, access_token := none,
                 decrypted_access_token := "" }

/-- Witness for C7 at a concrete configuration: the empty Bluesky field keeps
its persisted secret, and the non-secret fields are untouched. -/
theorem c7_witness :
    (Config.encrypt_credentials tagCipher charCodec mKey (n12, "") (n12, "")
        (n12, "") (n12, "") c7cfg).1.bluesky.password = some cexEncOk ∧
      (Config.encrypt_credentials tagCipher charCodec mKey (n12, "") (n12, "")
        (n12, "") (n12, "") c7cfg).1.mastodon.decrypted_access_token = "t" := by
  have h := c7_encrypt_credentials_frame tagCipher charCodec mKey (n12, "")
    (n12, "") (n12, "") (n12, "") c7cfg _ rfl
  exact ⟨(h.1 rfl).trans rfl, h.2.2.2.2.2.2.2.2.2.2.2.2.2.1.trans rfl⟩

/-- The platforms invoked by one adapter block of the PostSubmit task depend
only on the selection flag. -/
theorem runAdapter_fst (s : Bool) (p : Platform) (r : Option PostError) :
    (runAdapter s p r).1 = if s then [p] else [] := by
  cases s <;> simp [runAdapter]

/-- Membership in one adapter block's invocation list. -/
theorem mem_runAdapter_calls (s : Bool) (p q : Platform) (r : Option PostError) :
    q ∈ (runAdapter s p r).1 ↔ (s = true ∧ q = p) := by
  cases s <;> simp [runAdapter]

/-- One adapter block's error entries are exactly the tagged failures of the
platforms it invoked. -/
theorem runAdapter_errs (f : Platform → Option PostError) (s : Bool) (p : Platform) :
    (runAdapter s p (f p)).2 =
      (runAdapter s p (f p)).1.filterMap (fun q => (f q).map (tagError q)) := by
  cases s <;> cases hf : f p <;> simp [runAdapter, hf]

/-- The invocation list of `postSubmit`, explicitly. -/
theorem postSubmit_calls (sb sm su sn : Bool) (f : Platform → Option PostError) :
    (postSubmit sb sm su sn f).1 =
      (if sb then [Platform.bluesky] else []) ++ (if sm then [Platform.mastodon] else []) ++
        (if su then [Platform.microblog] else []) ++ (if sn then [Platform.nostr] else []) := by
  simp [postSubmit, runAdapter_fst]

/-- The error list of `postSubmit` is the tagged failures of the invoked
platforms, in invocation order. -/
theorem postSubmit_errs (sb sm su sn : Bool) (f : Platform → Option PostError) :
    (postSubmit sb sm su sn f).2.1 =
      (postSubmit sb sm su sn f).1.filterMap (fun q => (f q).map (tagError q)) := by
  simp only [postSubmit]
  rw [List.filterMap_append, List.filterMap_append, List.filterMap_append,
    ← runAdapter_errs f sb .bluesky, ← runAdapter_errs f sm .mastodon,
    ← runAdapter_errs f su .microblog, ← runAdapter_errs f sn .nostr]

/-- The result of `postSubmit` in terms of its error list. -/
theorem postSubmit_res (sb sm su sn : Bool) (f : Platform → Option PostError) :
    (postSubmit sb sm su sn f).2.2 =
      if ((postSubmit sb sm su sn f).2.1).isEmpty then .ok ()
      else .error (.Api (String.intercalate "; " ((postSubmit sb sm su sn f).2.1))) := by
  simp only [postSubmit]

/-- The invocation list of `postSubmit` has no duplicates. -/
theorem postSubmit_calls_nodup (sb sm su sn : Bool) (f : Platform → Option PostError) :
    (postSubmit sb sm su sn f).1.Nodup := by
  rw [postSubmit_calls]
  cases sb <;> cases sm <;> cases su <;> cases sn <;> decide

/-- `filterMap` over a duplicate-free list all of whose members map to
`none` except one, which maps to `some v`, yields `[v]`. -/
theorem filterMap_single_of_nodup {g : Platform → Option String} :
    ∀ (l : List Platform) (p : Platform) (v : String), l.Nodup → p ∈ l →
      g p = some v → (∀ q ∈ l, q ≠ p → g q = none) →
      l.filterMap g = [v] := by
  intro l
  induction l with
  | nil =>
    intro p v _ hmem
    exact absurd hmem (List.not_mem_nil p)
  | cons a t ih =>
    intro p v hnd hmem hp hnone
    rcases List.mem_cons.mp hmem with rfl | hmt
    · have ht : t.filterMap g = [] := by
        rw [List.filterMap_eq_nil_iff]
        intro q hq
        exact hnone q (List.mem_cons_of_mem _ hq)
          (fun hqp => (List.nodup_cons.mp hnd).1 (hqp ▸ hq))
      simp [List.filterMap_cons, hp, ht]
    · have ha : g a = none :=
        hnone a (List.mem_cons_self a t)
          (fun hap => (List.nodup_cons.mp hnd).1 (hap ▸ hmt))
      simp only [List.filterMap_cons, ha]
      exact ih p v (List.nodup_cons.mp hnd).2 hmt hp
        (fun q hq hqp => hnone q (List.mem_cons_of_mem _ hq) hqp)

/-- Claim C2: the PostSubmit task invokes every selected adapter even when an
earlier one fails (the invocation list does not depend on the outcomes),
invokes no adapter for an unselected platform and produces no entry for it,
collects each failure into an ordered list tagged with the failing platform's
name, returns success exactly when that list is empty and otherwise the
joined error list; in particular, when exactly one selected adapter fails the
aggregated list is exactly the one entry named for the failing platform. -/
theorem c2_postSubmit_aggregation (sb sm su sn : Bool)
    (adapter : Platform → Option PostError) :
    ∀ calls errs res, (calls, errs, res) = postSubmit sb sm su sn adapter →
    (∀ p, p ∈ calls ↔ selOf sb sm su sn p = true) ∧
    (∀ f, (postSubmit sb sm su sn f).1 = calls) ∧
    errs = calls.filterMap (fun q => (adapter q).map (tagError q)) ∧
    (res = .ok () ↔ errs = []) ∧
    (res = .ok () ∨ res = .error (.Api (String.intercalate "; " errs))) ∧
    (∀ p e, selOf sb sm su sn p = true → adapter p = some e →
      (∀ q, selOf sb sm su sn q = true → q ≠ p → adapter q = none) →
      errs = [tagError p e]) := by
  intro calls errs res h
  have hc : calls = (postSubmit sb sm su sn adapter).1 := congrArg Prod.fst h
  have he : errs = (postSubmit sb sm su sn adapter).2.1 :=
    congrArg (fun x => x.2.1) h
  have hr : res = (postSubmit sb sm su sn adapter).2.2 :=
    congrArg (fun x => x.2.2) h
  have hmem : ∀ p, p ∈ calls ↔ selOf sb sm su sn p = true := by
    intro p
    rw [hc, postSubmit_calls]
    cases p <;> cases sb <;> cases sm <;> cases su <;> cases sn <;> simp [selOf]
  have herrs : errs = calls.filterMap (fun q => (adapter q).map (tagError q)) := by
    rw [he, hc]
    exact postSubmit_errs sb sm su sn adapter
  refine ⟨hmem, ?_, herrs, ?_, ?_, ?_⟩
  · intro f
    rw [hc, postSubmit_calls, postSubmit_calls]
  · rw [hr, postSubmit_res, ← he]
    by_cases hE : errs = []
    · simp [hE]
    · simp [List.isEmpty_iff, hE]
  · rw [hr, postSubmit_res, ← he]
    by_cases hE : errs = []
    · simp [hE]
    · simp [List.isEmpty_iff, hE]
  · intro p e hp hpe hothers
    rw [herrs]
    refine filterMap_single_of_nodup calls p (tagError p e) ?_ ((hmem p).mpr hp) ?_ ?_
    · rw [hc]
      exact postSubmit_calls_nodup sb sm su sn adapter
    · rw [hpe]
      rfl
    · intro q hq hqp
      rw [hothers q ((hmem q).mp hq) hqp]
      rfl

/-- The adapter outcome for the C2 witness: Mastodon fails, everyone else
succeeds. -/
def c2adapter : Platform → Option PostError :=
  fun p => match p with
    | .mastodon => some (.Network "boom")
    | _ => none

/-- Witness for C2: three platforms selected, exactly the Mastodon adapter
fails, and the aggregated error carries exactly that one tagged entry. -/
theorem c2_witness :
    (postSubmit true true true false c2adapter).1 =
        [Platform.bluesky, Platform.mastodon, Platform.microblog] ∧
      (postSubmit true true true false c2adapter).2.1 =
        ["Mastodon: Network error: boom"] ∧
      (postSubmit true true true false c2adapter).2.2 =
        .error (.Api "Mastodon: Network error: boom") := by
  have h := c2_postSubmit_aggregation true true true false c2adapter
    (postSubmit true true true false c2adapter).1
    (postSubmit true true true false c2adapter).2.1
    (postSubmit true true true false c2adapter).2.2 rfl
  refine ⟨by decide, ?_, by decide⟩
  exact h.2.2.2.2.2 .mastodon (.Network "boom") rfl rfl
    (by intro q hq hqp; cases q <;> first | rfl | exact absurd rfl hqp)

/-- Claim C9 counterexample: with Bluesky, Mastodon and Micro.blog selected,
the PostSubmit task observes Bluesky's completion strictly before Mastodon's
request is issued — the claimed join-all ordering (every selected request
issued before any completion is awaited) does not hold. -/
theorem c9_counterexample :
    (postSubmitAwaitTrace true true true false).indexOf (OrchEvent.finish .bluesky) <
        (postSubmitAwaitTrace true true true false).indexOf (OrchEvent.start .mastodon) ∧
      ¬ ((postSubmitAwaitTrace true true true false).indexOf (OrchEvent.start .mastodon) <
        (postSubmitAwaitTrace true true true false).indexOf (OrchEvent.finish .bluesky)) := by
  decide

/-- Claim C9 (amended): the PostSubmit task awaits the selected adapters
sequentially in the fixed order Bluesky, Mastodon, Micro.blog, Nostr: an
earlier selected platform's call completes before a later selected platform's
request is issued, so a slow earlier platform delays the start of every later
one. -/
theorem c9_sequential_awaits :
    ∀ (sb sm su sn : Bool) (p q : Platform),
      selOf sb sm su sn p = true → selOf sb sm su sn q = true →
      platformIdx p < platformIdx q →
      (postSubmitAwaitTrace sb sm su sn).indexOf (OrchEvent.finish p) <
        (postSubmitAwaitTrace sb sm su sn).indexOf (OrchEvent.start q) := by
  intro sb sm su sn p q
  cases sb <;> cases sm <;> cases su <;> cases sn <;> cases p <;> cases q <;> decide

/-- Witness for C9 (amended) at a concrete selection. -/
theorem c9_witness :
    (postSubmitAwaitTrace true true true false).indexOf (OrchEvent.finish .bluesky) <
      (postSubmitAwaitTrace true true true false).indexOf (OrchEvent.start .mastodon) :=
  c9_sequential_awaits true true true false .bluesky .mastodon rfl rfl (by decide)

/-- The create-record phase issues exactly one call, carrying the truncated
text and the embed flag. -/
theorem bskyCreatePhase_snd (cr : NetResult String) (tt : String) (hb : Bool) :
    (bskyCreatePhase cr tt hb).2 = [BskyCall.createRecord tt hb] := by
  cases cr with
  | transportErr m => rfl
  | resp s b => cases s <;> rfl

/-- A `createRecord` call in the create-record phase carries the phase's
text. -/
theorem bskyCreatePhase_mem (cr : NetResult String) (tt : String) (hb : Bool)
    (t : String) (em : Bool) :
    BskyCall.createRecord t em ∈ (bskyCreatePhase cr tt hb).2 → t = tt := by
  intro h
  rw [bskyCreatePhase_snd] at h
  simp at h
  exact h.1

/-- The upload phase's call list is empty or the single upload call. -/
theorem bskyUploadPhase_calls (fs : String → Except String Nat)
    (up : NetResult Bool) (path : String) :
    (match bskyUploadPhase fs up path with
     | .error (_, cs) => cs
     | .ok (_, cs) => cs) = [] ∨
    (match bskyUploadPhase fs up path with
     | .error (_, cs) => cs
     | .ok (_, cs) => cs) = [BskyCall.uploadBlob] := by
  unfold bskyUploadPhase
  cases fs path with
  | error e => left; rfl
  | ok size =>
    dsimp only
    by_cases hsz : size > 1000000
    · rw [if_pos hsz]
      left
      rfl
    · rw [if_neg hsz]
      cases up with
      | transportErr m => right; rfl
      | resp s b => cases s <;> (right; rfl)

/-- Every `createRecord` call issued by `post_to_bluesky` carries the
substituted-then-truncated text. -/
theorem bsky_posted_text (config : BlueskyConfig) (text : String)
    (image_path : Option String) (fs : String → Except String Nat)
    (net : BskyNet) (t : String) (em : Bool)
    (hmem : BskyCall.createRecord t em ∈ (post_to_bluesky config text image_path fs net).2) :
    t = bskyTruncate (bskySubstituted text image_path) := by
  rw [post_to_bluesky] at hmem
  split at hmem
  · simp at hmem
  · split at hmem
    · simp at hmem
    · simp at hmem
    · simp at hmem
    · rename_i jwt
      cases image_path with
      | none =>
        dsimp only at hmem
        rw [List.mem_cons] at hmem
        rcases hmem with hmem | hmem
        · exact absurd hmem (by simp)
        · exact bskyCreatePhase_mem net.create _ false t em hmem
      | some path =>
        have hcs := bskyUploadPhase_calls fs net.upload path
        cases hup : bskyUploadPhase fs net.upload path with
        | error r =>
          obtain ⟨e, cs⟩ := r
          rw [hup] at hcs
          dsimp only at hcs
          dsimp only at hmem
          rw [hup] at hmem
          dsimp only at hmem
          rw [List.mem_cons] at hmem
          rcases hmem with hmem | hmem
          · exact absurd hmem (by simp)
          · rcases hcs with rfl | rfl
            · simp at hmem
            · simp at hmem
        | ok r =>
          obtain ⟨hb, cs⟩ := r
          rw [hup] at hcs
          dsimp only at hcs
          dsimp only at hmem
          rw [hup] at hmem
          dsimp only at hmem
          rw [List.mem_cons, List.mem_append] at hmem
          rcases hmem with hmem | hmem | hmem
          · exact absurd hmem (by simp)
          · rcases hcs with rfl | rfl
            · simp at hmem
            · simp at hmem
          · exact bskyCreatePhase_mem net.create _ hb t em hmem

/-- `bskyTruncate` never yields more than 300 scalar values. -/
theorem bskyTruncate_le (s : String) : (bskyTruncate s).toList.length ≤ 300 := by
  unfold bskyTruncate BLUESKY_CHARACTER_LIMIT
  by_cases h : s.toList.length > 300
  · rw [if_pos h]
    have : (String.mk (s.toList.take 300)).toList = s.toList.take 300 := rfl
    rw [this, List.length_take]
    exact min_le_left 300 s.toList.length
  · rw [if_neg h]
    omega

/-- `bskyTruncate` leaves text of at most 300 scalar values unchanged. -/
theorem bskyTruncate_short (s : String) (h : s.toList.length ≤ 300) :
    bskyTruncate s = s := by
  unfold bskyTruncate BLUESKY_CHARACTER_LIMIT
  rw [if_neg (by omega)]

/-- `bskyTruncate` cuts a 400-fold repeated character to exactly 300
copies. -/
theorem bskyTruncate_replicate (c : Char) :
    bskyTruncate (String.mk (List.replicate 400 c)) =
      String.mk (List.replicate 300 c) := by
  unfold bskyTruncate BLUESKY_CHARACTER_LIMIT
  have h1 : (String.mk (List.replicate 400 c)).toList = List.replicate 400 c := rfl
  rw [h1, List.length_replicate, if_pos (by omega), List.take_replicate]
  have h2 : (300 : Nat) ⊓ 400 = 300 := by omega
  rw [h2]

/-- A Bluesky configuration passing the precondition check, for concrete
adapter runs. -/
def cfgB : BlueskyConfig where
  enabled := true
  handle := "h"
  password := none
  decrypted_password := "p"

/-- A filesystem oracle with a small readable file at every path. -/
def fsOk : String → Except String Nat := fun _ => .ok 10

/-- A network oracle where everything succeeds (upload reports no blob). -/
def netOk : BskyNet where
  session := .resp true (some "j")
  upload := .resp true false
  create := .resp true ""

/-- A network oracle where the image upload returns a non-success status and
everything else succeeds. -/
def netUpFail : BskyNet where
  session := .resp true (some "j")
  upload := .resp false true
  create := .resp true ""

/-- Claim C6: the Bluesky adapter posts at most 300 Unicode scalar values,
counting by scalar value: every `createRecord` call carries the
substituted-then-truncated text, which never exceeds 300 scalar values; text
of at most 300 scalar values passes truncation unchanged (and non-blank text
without the image substitution is posted exactly as given); a 400-character
ASCII message truncates to exactly 300 characters and a 400-emoji message to
exactly 300 emoji. -/
theorem c6_bluesky_truncation :
    (∀ config text image_path fs net t em,
        BskyCall.createRecord t em ∈ (post_to_bluesky config text image_path fs net).2 →
        t = bskyTruncate (bskySubstituted text image_path) ∧ t.toList.length ≤ 300) ∧
    (∀ s, s.toList.length ≤ 300 → bskyTruncate s = s) ∧
    (∀ text image_path, rustTrimEmpty text = false ∨ image_path = none →
        bskySubstituted text image_path = text) ∧
    bskyTruncate (String.mk (List.replicate 400 'a')) = String.mk (List.replicate 300 'a') ∧
    bskyTruncate (String.mk (List.replicate 400 '🚀')) = String.mk (List.replicate 300 '🚀') := by
  refine ⟨?_, bskyTruncate_short, ?_, bskyTruncate_replicate 'a', bskyTruncate_replicate '🚀'⟩
  · intro config text image_path fs net t em hmem
    have ht := bsky_posted_text config text image_path fs net t em hmem
    exact ⟨ht, ht ▸ bskyTruncate_le (bskySubstituted text image_path)⟩
  · intro text image_path h
    rcases h with h | h
    · simp [bskySubstituted, h]
    · subst h
      simp [bskySubstituted]

/-- Witness for C6 at a concrete adapter run and concrete texts. -/
theorem c6_witness :
    BskyCall.createRecord "hi" false ∈ (post_to_bluesky cfgB "hi" none fsOk netOk).2 ∧
      "hi" = bskyTruncate (bskySubstituted "hi" none) ∧
      ("hi" : String).toList.length ≤ 300 ∧
      bskyTruncate "hi" = "hi" ∧
      bskySubstituted "hi" none = "hi" := by
  have hmem : BskyCall.createRecord "hi" false ∈ (post_to_bluesky cfgB "hi" none fsOk netOk).2 := by
    decide
  have h := c6_bluesky_truncation.1 cfgB "hi" none fsOk netOk "hi" false hmem
  exact ⟨hmem, h.1, h.2, c6_bluesky_truncation.2.1 "hi" (by decide),
    c6_bluesky_truncation.2.2.1 "hi" none (Or.inr rfl)⟩

/-- Claim C8 counterexample: the input text `"  "` is non-empty, yet with an
image attached the Bluesky adapter posts the substituted single space rather
than the input (the source substitutes whenever `text.trim()` is empty, not
only when the text is empty). -/
theorem c8_counterexample :
    (post_to_bluesky cfgB "  " (some "img") fsOk netUpFail).2 =
        [.createSession, .uploadBlob, .createRecord " " false] ∧
      (" " : String) ≠ "  " ∧
      ("  " : String) ≠ "" := by
  decide

/-- Claim C8 (amended): the Bluesky adapter substitutes a single space
exactly when the input text is empty or consists only of whitespace and an
image is attached; otherwise the input text itself (subject to truncation) is
what a `createRecord` call carries. -/
theorem c8_empty_text_substitution :
    (∀ config text image_path fs net t em,
        BskyCall.createRecord t em ∈ (post_to_bluesky config text image_path fs net).2 →
        t = bskyTruncate (bskySubstituted text image_path)) ∧
    (∀ text image_path, rustTrimEmpty text = true → image_path.isSome = true →
        bskySubstituted text image_path = " ") ∧
    (∀ text image_path, rustTrimEmpty text = false ∨ image_path = none →
        bskySubstituted text image_path = text) ∧
    rustTrimEmpty "" = true := by
  refine ⟨bsky_posted_text, ?_, ?_, rfl⟩
  · intro text image_path h1 h2
    simp [bskySubstituted, h1, h2]
  · intro text image_path h
    rcases h with h | h
    · simp [bskySubstituted, h]
    · subst h
      simp [bskySubstituted]

/-- Witness for C8 (amended) at concrete texts. -/
theorem c8_witness :
    bskySubstituted "" (some "img") = " " ∧
      bskySubstituted "hello" (some "img") = "hello" ∧
      bskySubstituted "x" none = "x" := by
  refine ⟨c8_empty_text_substitution.2.1 "" (some "img") rfl rfl, ?_, ?_⟩
  · exact c8_empty_text_substitution.2.2.1 "hello" (some "img") (Or.inl (by decide))
  · exact c8_empty_text_substitution.2.2.1 "x" none (Or.inr rfl)

/-- Claim C4: each adapter checks `enabled` and its required non-secret and
decrypted-secret fields first; a violation returns an `Auth` error naming the
platform with an empty network-call trace. -/
theorem c4_fail_fast_preconditions :
    (∀ (config : BlueskyConfig) text image_path fs net,
        config.enabled = false ∨ config.handle = "" ∨ config.decrypted_password = "" →
        post_to_bluesky config text image_path fs net =
          (.error (.Auth "Bluesky not configured"), [])) ∧
    (∀ (config : MastodonConfig) text image_path fs net,
        config.enabled = false ∨ config.instance_url = "" ∨ config.decrypted_access_token = "" →
        post_to_mastodon config text image_path fs net =
          (.error (.Auth "Mastodon not configured"), [])) ∧
    (∀ (config : NostrConfig) text image_path parseKey signEvent sendRes,
        config.enabled = false ∨ config.decrypted_private_key = "" ∨ config.relays = [] →
        post_to_nostr config text image_path parseKey signEvent sendRes =
          (.error (.Auth "Nostr not configured"), [])) ∧
    (∀ (config : MicroBlogConfig) text image_path fs multiResp formResp,
        config.enabled = false ∨ config.decrypted_access_token = "" →
        post_to_microblog config text image_path fs multiResp formResp =
          (.error (.Auth "Micro.Blog not configured"), [])) := by
  refine ⟨?_, ?_, ?_, ?_⟩
  · intro config text image_path fs net h
    unfold post_to_bluesky
    rw [if_pos (by rcases h with h | h | h <;> simp [h, String.isEmpty_iff])]
  · intro config text image_path fs net h
    unfold post_to_mastodon
    rw [if_pos (by rcases h with h | h | h <;> simp [h, String.isEmpty_iff])]
  · intro config text image_path parseKey signEvent sendRes h
    unfold post_to_nostr
    rw [if_pos (by rcases h with h | h | h <;> simp [h, String.isEmpty_iff, List.isEmpty_iff])]
  · intro config text image_path fs multiResp formResp h
    unfold post_to_microblog
    rw [if_pos (by rcases h with h | h <;> simp [h, String.isEmpty_iff])]

/-- A Mastodon network oracle for concrete runs. -/
def mastoNet0 : MastoNet where
  media := .resp true none
  status := .resp true ""

/-- A trivial key-parsing oracle for concrete runs. -/
def parse0 : String → Except String Unit := fun _ => .ok ()

/-- Witness for C4: each adapter, disabled, returns its `Auth` error and
issues no network call. -/
theorem c4_witness :
    post_to_bluesky ⟨false, "", none, ""⟩ "t" none fsOk netOk
        = (.error (.Auth "Bluesky not configured"), []) ∧
      post_to_mastodon ⟨false, "", none, ""⟩ "t" none fsOk mastoNet0
        = (.error (.Auth "Mastodon not configured"), []) ∧
      post_to_nostr ⟨false, none, [], ""⟩ "t" none parse0 (.ok ()) (.ok ())
        = (.error (.Auth "Nostr not configured"), []) ∧
      post_to_microblog ⟨false, none, ""⟩ "t" none fsOk (.resp true "") (.resp true "")
        = (.error (.Auth "Micro.Blog not configured"), []) := by
  refine ⟨?_, ?_, ?_, ?_⟩
  · exact c4_fail_fast_preconditions.1 _ "t" none fsOk netOk (Or.inl rfl)
  · exact c4_fail_fast_preconditions.2.1 _ "t" none fsOk mastoNet0 (Or.inl rfl)
  · exact c4_fail_fast_preconditions.2.2.1 _ "t" none parse0 (.ok ()) (.ok ()) (Or.inl rfl)
  · exact c4_fail_fast_preconditions.2.2.2 _ "t" none fsOk (.resp true "") (.resp true "") (Or.inl rfl)

/-- Claim C10: when the image is readable and within the size cap but the
upload call returns a non-success status, the Bluesky adapter returns no
error for the upload: the record is created without an embed, the overall
result is exactly the create-record phase's result, and a successful
create-record call yields overall success. -/
theorem c10_upload_failure_tolerated (config : BlueskyConfig)
    (text path : String) (fs : String → Except String Nat) (net : BskyNet)
    (jwt : String) (size : Nat) (body : Bool)
    (hguard : (!config.enabled || config.handle.isEmpty || config.decrypted_password.isEmpty) = false)
    (hsession : net.session = .resp true (some jwt))
    (hfs : fs path = .ok size) (hsize : ¬ size > 1000000)
    (hup : net.upload = .resp false body) :
    (post_to_bluesky config text (some path) fs net).2 =
        [.createSession, .uploadBlob,
          .createRecord (bskyTruncate (bskySubstituted text (some path))) false] ∧
      (post_to_bluesky config text (some path) fs net).1 =
        (bskyCreatePhase net.create (bskyTruncate (bskySubstituted text (some path))) false).1 ∧
      (∀ cb, net.create = .resp true cb →
        (post_to_bluesky config text (some path) fs net).1 = .ok ()) := by
  have hphase : bskyUploadPhase fs net.upload path = .ok (false, [.uploadBlob]) := by
    unfold bskyUploadPhase
    rw [hfs]
    dsimp only
    rw [if_neg hsize, hup]
  have hpost : post_to_bluesky config text (some path) fs net =
      ((bskyCreatePhase net.create (bskyTruncate (bskySubstituted text (some path))) false).1,
        .createSession :: ([BskyCall.uploadBlob] ++
          (bskyCreatePhase net.create (bskyTruncate (bskySubstituted text (some path))) false).2)) := by
    rw [post_to_bluesky, if_neg (by rw [hguard]; simp), hsession]
    dsimp only
    rw [hphase]
  refine ⟨?_, ?_, ?_⟩
  · rw [hpost]
    simp [bskyCreatePhase_snd]
  · rw [hpost]
  · intro cb hc
    rw [hpost]
    dsimp only
    rw [hc]
    rfl

/-- Witness for C10 at a concrete run: the upload fails with a non-success
status, the record is posted without an embed, and the adapter still
succeeds. -/
theorem c10_witness :
    (post_to_bluesky cfgB "hi" (some "img") fsOk netUpFail).2 =
        [.createSession, .uploadBlob, .createRecord "hi" false] ∧
      (post_to_bluesky cfgB "hi" (some "img") fsOk netUpFail).1 = .ok () := by
  have h := c10_upload_failure_tolerated cfgB "hi" "img" fsOk netUpFail "j" 10 true
    (by decide) rfl rfl (by decide) rfl
  refine ⟨?_, h.2.2 "" rfl⟩
  rw [h.1]
  decide

end YallCosmic
